import Mathlib

/-!
Verification of the track-resolution core of `plex-tui.py`.

The file shallowly embeds the parts of the program that the claims are
about: the artist-resolution fallback chain `_get_artist_name`, the
playlist-loading pipeline `_load_playlist_tracks` (cache lookup, strategy
selection, capped fetch with fallbacks), and the playback actions
`action_next` / `action_previous` / `action_random` / `action_play_pause`.

Remote collaborators (the Plex library handle, the playlist item iterator,
the track reload and artist fetch calls) are modelled as explicit
environments of functions; a Python exception caught by a `try/except`
is modelled as an error value of the corresponding call.  Python `None`
and the empty string are collapsed to `""` wherever the source only ever
tests them for truthiness, which is the case at every site modelled here.
In-place list mutation (`random.shuffle`) and reference aliasing between
`self.current_playlist` and `self.tracks_cache[key]` are modelled with an
explicit heap of list cells addressed by index.
-/

set_option autoImplicit false

namespace PlexTUI

/-! ## String helpers

`trimStr` models Python `str.strip()` (on the whitespace characters that
matter here); `strContains` models the Python `in` substring test used by
`"Recently Added" in playlist_title`. -/

def isSpaceChar (c : Char) : Bool :=
  c == ' ' || c == '\t' || c == '\n' || c == '\r'

def trimStr (s : String) : String :=
  ⟨((s.data.dropWhile isSpaceChar).reverse.dropWhile isSpaceChar).reverse⟩

/-- `leadsWith needle hay` is true when `needle` occurs at the start of `hay`. -/
def leadsWith : List Char → List Char → Bool
  | [], _ => true
  | _ :: _, [] => false
  | a :: as, b :: bs => a == b && leadsWith as bs

def containsSub : List Char → List Char → Bool
  | [], needle => leadsWith needle []
  | c :: t, needle => leadsWith needle (c :: t) || containsSub t needle

def strContains (hay needle : String) : Bool :=
  containsSub hay.data needle.data

/-! ## Configuration constants (plex-tui.py lines 39-42) -/

def LARGE_PLAYLIST_THRESHOLD : Nat := 1000
def LARGE_PLAYLIST_LIMIT : Nat := 50
def REGULAR_PLAYLIST_LIMIT : Nat := 100
def MAX_API_RESULTS : Nat := 1000

/-! ## Track model and the artist resolver `_get_artist_name`

A structured attribute read on a plexapi object can find the attribute
absent, find a value, or raise (plexapi attributes may trigger lazy
network fetches); all three cases occur inside `try/except` blocks in the
source, so they are modelled by `Attr`.  The raw XML document `_data` is
modelled as an association list from element names to their text (an
element whose `text` is Python `None` carries `""`). -/

inductive Attr (α : Type) where
  | absent
  | val (a : α)
  | raises
  deriving DecidableEq

structure Track where
  ratingKey : Option Nat
  grandparentTitle : Attr String
  originalTitle : Attr String
  parentTitle : Attr String
  rawData : Option (List (String × String))
  deriving DecidableEq

/-- Result of `track.artist()`: plexapi artist object with an optional
`title` attribute and a string form used when `title` is absent. -/
structure ArtistObj where
  title : Option String
  strForm : String
  deriving DecidableEq

/-- Remote calls available to `_get_artist_name`: `self.plex.fetchItem`
(method 5) and `track.artist()` (method 6).  `none` models a raised
exception (or, for `artist()`, a falsy result), which the source swallows. -/
structure ResolveEnv where
  fetchItem : Nat → Option Track
  artistCall : Track → Option ArtistObj

/-- XML `find`: first element with the given name, or `none`. -/
def findElem : List (String × String) → String → Option String
  | [], _ => none
  | (n, txt) :: rest, key => if n = key then some txt else findElem rest key

/-- A structured-field tier (methods 1, 3, 4 of `_get_artist_name`):
`if hasattr(track, f) and track.f: artist = str(track.f).strip()`,
with any exception swallowed.  Yields `""` when nothing was assigned. -/
def structuredRead (a : Attr String) : String :=
  match a with
  | .val s => if s = "" then "" else trimStr s
  | _ => ""

/-- The element names scanned by method 2 (lines 421-425). -/
def artistElemNames : List String := ["grandparentTitle", "originalTitle", "parentTitle"]

/-- Method 2's scan over `_data`: the loop breaks at the first element with
truthy text, assigning `elem.text.strip()` - even when the stripped text is
empty, in which case the remaining names are not examined and the tier as a
whole produced nothing. -/
def rawScan (doc : List (String × String)) : List String → String
  | [] => ""
  | n :: ns =>
    match findElem doc n with
    | some txt => if txt = "" then rawScan doc ns else trimStr txt
    | none => rawScan doc ns

/-- The `_data` lookup applied to the reloaded track inside method 5
(lines 453-456): only the `grandparentTitle` element is consulted. -/
def reloadRaw (r : Track) : String :=
  match r.rawData with
  | some doc =>
    match findElem doc "grandparentTitle" with
    | some txt => if txt = "" then "" else trimStr txt
    | none => ""
  | none => ""

/-- Method 5 (lines 447-458): reload the track by `ratingKey` via
`fetchItem`, then read `grandparentTitle` structurally, else from the
reloaded raw document; every failure yields `""`. -/
def reloadLookup (env : ResolveEnv) (t : Track) : String :=
  match t.ratingKey with
  | none => ""
  | some key =>
    match env.fetchItem key with
    | none => ""
    | some r =>
      match r.grandparentTitle with
      | .raises => ""
      | .val s => if s = "" then reloadRaw r else trimStr s
      | .absent => reloadRaw r

/-- Method 6 (lines 461-468): `track.artist()`, then
`artist_obj.title if hasattr(artist_obj, 'title') else str(artist_obj)`,
then `artist.strip() if artist else None`. -/
def artistCallLookup (env : ResolveEnv) (t : Track) : String :=
  match env.artistCall t with
  | none => ""
  | some ao =>
    match ao.title with
    | some v => if v = "" then "" else trimStr v
    | none => if ao.strForm = "" then "" else trimStr ao.strForm

/-- `return artist or 'Unknown'` (line 470). -/
def finishArtist (a : String) : String :=
  if a = "" then "Unknown" else a

/-- Outcome of one `_get_artist_name` call.  `found` is the value of the
Python local `artist` just before `return artist or 'Unknown'` (with `""`
standing for both `None` and empty); `tier5Attempted` / `tier6Attempted`
record whether the expensive reload / artist-fetch calls were reached. -/
structure ResolveResult where
  artist : String
  found : String
  tier5Attempted : Bool
  tier6Attempted : Bool
  deriving DecidableEq

/-- Value of the local `artist` after method 1. -/
def acc1 (t : Track) : String := structuredRead t.grandparentTitle

/-- Value of the local `artist` after method 2 (the raw-document scan runs
only when `artist` is still falsy). -/
def acc2 (t : Track) : String :=
  if acc1 t = "" then
    (match t.rawData with
     | some doc => rawScan doc artistElemNames
     | none => "")
  else acc1 t

/-- Value of the local `artist` after method 3. -/
def acc3 (t : Track) : String :=
  if acc2 t = "" then structuredRead t.originalTitle else acc2 t

/-- Value of the local `artist` after method 4. -/
def acc4 (t : Track) : String :=
  if acc3 t = "" then structuredRead t.parentTitle else acc3 t

/-- Value of the local `artist` after method 5 (the reload runs only when
`artist` is still falsy and the track has a `ratingKey`). -/
def acc5 (env : ResolveEnv) (t : Track) : String :=
  if acc4 t = "" then
    (match t.ratingKey with
     | some _ => reloadLookup env t
     | none => "")
  else acc4 t

/-- Value of the local `artist` after method 6. -/
def acc6 (env : ResolveEnv) (t : Track) : String :=
  if acc5 env t = "" then artistCallLookup env t else acc5 env t

/-- `_get_artist_name` (lines 405-470), with the six methods run in source
order, each only when the accumulator is still falsy. -/
def getArtistName (env : ResolveEnv) (t : Track) : ResolveResult :=
  { artist := finishArtist (acc6 env t)
    found := acc6 env t
    tier5Attempted := if acc4 t = "" then t.ratingKey.isSome else false
    tier6Attempted := if acc5 env t = "" then true else false }

/-- Expensive remote invocations a single `_get_artist_name` call performs
(the method-5 reload plus the method-6 artist fetch). -/
def expensiveCalls (env : ResolveEnv) (t : Track) : Nat :=
  (if (getArtistName env t).tier5Attempted then 1 else 0) +
    (if (getArtistName env t).tier6Attempted then 1 else 0)

/-- Total expensive remote invocations incurred by `n` successive display
redraws of the same track: each redraw calls `_get_artist_name` afresh
(`_update_playlist_display` lines 486-496 holds no memo). -/
def repeatedResolveCost (env : ResolveEnv) (t : Track) : Nat → Nat
  | 0 => 0
  | n + 1 => expensiveCalls env t + repeatedResolveCost env t n

/-! ## Playlist model, strategy selection and the fetch pipeline

A playlist carries the attributes `_load_playlist_tracks` consults.
`leafCount` / `childCount` distinguish "attribute absent" (outer `none`,
`hasattr` false) from "attribute present with this value" (`some v`, where
`v = none` models Python `None`), because the source chains the reads with
`elif hasattr(...)`.  `dataLeafCount` is the parsed text of the
`leafCount` element of `playlist._data` (already `none` when the element
is missing, empty, or unparsable, all of which the source swallows). -/

structure Playlist where
  ratingKey : Option String
  title : String
  leafCount : Option (Option Nat)
  childCount : Option (Option Nat)
  dataLeafCount : Option Nat
  deriving DecidableEq

/-- The `playlist_count` probe (lines 261-273). -/
def playlistCount (p : Playlist) : Option Nat :=
  match p.leafCount with
  | some v => v
  | none =>
    match p.childCount with
    | some v => v
    | none => p.dataLeafCount

/-- `is_large_playlist = playlist_count and playlist_count > LARGE_PLAYLIST_THRESHOLD`
(line 276); a count of `0` is falsy in Python, and `0 > 1000` is false, so
both readings coincide. -/
def isLargePlaylist (p : Playlist) : Bool :=
  match playlistCount p with
  | some c => decide (LARGE_PLAYLIST_THRESHOLD < c)
  | none => false

/-- The limit chosen at lines 277-278; every call site passes `limit=None`,
so the default computation always applies. -/
def chosenLimit (p : Playlist) : Nat :=
  if isLargePlaylist p then LARGE_PLAYLIST_LIMIT else REGULAR_PLAYLIST_LIMIT

/-- `api_limit = min(limit, MAX_API_RESULTS)` (line 281). -/
def apiLimitOf (p : Playlist) : Nat :=
  min (chosenLimit p) MAX_API_RESULTS

/-- Kinds of exception the fetch paths distinguish: the inner
`except AttributeError` at line 306 versus everything else. -/
inductive PyError where
  | attributeError
  | otherError
  deriving DecidableEq

/-- Result of one remote enumeration call: the materialized item sequence,
or a raised exception. -/
inductive Remote (α : Type) where
  | ok (items : List α)
  | err (e : PyError)
  deriving DecidableEq

/-- The remote collaborators of `_load_playlist_tracks`: the music-library
handle (`musicLibrary` is its availability; its methods `recentlyAdded`,
sorted `search`, plain `search`, `all`) and the playlist's own `items()`.
The `Nat` argument is the `maxresults` the source passes (`api_limit`);
`library.all()` and `playlist.items()` take no limit in the source. -/
structure Env where
  musicLibrary : Bool
  recentlyAdded : Nat → Remote Track
  searchSortedByAdded : Nat → Remote Track
  searchAll : Nat → Remote Track
  libraryAll : Remote Track
  items : Remote Track

/-- The three fetch strategies of the spec. -/
inductive Strategy where
  | recentFeed
  | largeLibraryScan
  | directEnumeration
  deriving DecidableEq

/-- The branch selection of lines 296-301 and 328/366: the `"Recently
Added"` title test (guarded by the title being truthy and the library
handle existing) takes precedence over `use_library_method`. -/
def selectStrategy (env : Env) (p : Playlist) : Strategy :=
  if p.title ≠ "" ∧ strContains p.title "Recently Added" = true ∧ env.musicLibrary = true then
    .recentFeed
  else if isLargePlaylist p = true ∧ env.musicLibrary = true then
    .largeLibraryScan
  else
    .directEnumeration

/-- Direct enumeration of the playlist's own items (lines 368-380, also the
final fallback of the other two branches): take the first `limit` items;
a raised `items()` propagates out of the branch (result `none`). -/
def fallbackItems (env : Env) (limit : Nat) : Option (List Track) :=
  match env.items with
  | .ok xs => some (xs.take limit)
  | .err _ => none

/-- The `"Recently Added"` branch (lines 301-327): `recentlyAdded`; on
`AttributeError` only, the sorted `search` with the same cap; any other
failure of either call falls through to the playlist's own items. -/
def fetchRecent (env : Env) (limit apiLimit : Nat) : Option (List Track) :=
  match env.recentlyAdded apiLimit with
  | .ok xs => some (xs.take limit)
  | .err .attributeError =>
    match env.searchSortedByAdded apiLimit with
    | .ok xs => some (xs.take limit)
    | .err _ => fallbackItems env limit
  | .err .otherError => fallbackItems env limit

/-- The large-playlist branch (lines 328-365): library `search` with the
API-level limit, truncated client-side when longer than `limit`; on
failure `library.all()` taken up to `limit`; on failure of that, the
playlist's own items. -/
def fetchLarge (env : Env) (limit apiLimit : Nat) : Option (List Track) :=
  match env.searchAll apiLimit with
  | .ok xs => some (if limit < xs.length then xs.take limit else xs)
  | .err _ =>
    match env.libraryAll with
    | .ok xs => some (xs.take limit)
    | .err _ => fallbackItems env limit

/-- The whole fetch block of `_load_playlist_tracks` after the cache miss
(lines 301-380), dispatching on the selected branch. -/
def runFetch (env : Env) (p : Playlist) (limit apiLimit : Nat) : Option (List Track) :=
  match selectStrategy env p with
  | .recentFeed => fetchRecent env limit apiLimit
  | .largeLibraryScan => fetchLarge env limit apiLimit
  | .directEnumeration => fallbackItems env limit

/-! ## Application state, loading, and playback actions

`current_playlist` and the values of `tracks_cache` are Python list
objects that may alias each other (the cache-hit path installs the cached
list itself, and `_load_playlist_tracks` caches the very list it installs).
The heap models those list objects: `heap` is the store of list cells,
`tracksCache` maps a playlist `ratingKey` to a cell index, and
`currentCell` is the cell `current_playlist` refers to.  `fetchCount`
instruments how many times the fetch block (as opposed to the cache) ran. -/

structure AppState where
  heap : List (List Track)
  tracksCache : List (String × Nat)
  currentCell : Nat
  currentIndex : Int
  hasProcess : Bool
  highlighted : Option Playlist
  fetchCount : Nat
  deriving DecidableEq

/-- The list `self.current_playlist` currently refers to. -/
def currentList (s : AppState) : List Track :=
  s.heap.getD s.currentCell []

/-- The cache-miss path of `_load_playlist_tracks` (lines 260-399): run the
fetch; on success allocate the result as a fresh list cell, store that same
cell in the cache (when a key exists, line 385) and install it as
`current_playlist` with the index reset; on failure (line 400's handler)
only the status line changes. -/
def loadFetch (env : Env) (p : Playlist) (key : Option String) (s : AppState) : AppState :=
  match runFetch env p (chosenLimit p) (apiLimitOf p) with
  | some ts =>
    { s with
      heap := s.heap ++ [ts]
      tracksCache :=
        match key with
        | some k => (k, s.heap.length) :: s.tracksCache
        | none => s.tracksCache
      currentCell := s.heap.length
      currentIndex := 0
      fetchCount := s.fetchCount + 1 }
  | none => { s with fetchCount := s.fetchCount + 1 }

/-- `_load_playlist_tracks` (lines 243-403): the cache is consulted first
(lines 250-258) and a hit installs the cached cell itself and returns
before any strategy selection or remote call. -/
def loadPlaylistTracks (env : Env) (p : Playlist) (s : AppState) : AppState :=
  match p.ratingKey with
  | some k =>
    match s.tracksCache.lookup k with
    | some cell => { s with currentCell := cell, currentIndex := 0 }
    | none => loadFetch env p (some k) s
  | none => loadFetch env p none s

/-- `action_next` (lines 662-666); `_play_track` touches none of the state
modelled here. -/
def actionNext (s : AppState) : AppState :=
  if currentList s ≠ [] ∧ s.currentIndex < ((currentList s).length : Int) - 1 then
    { s with currentIndex := s.currentIndex + 1 }
  else s

/-- `action_previous` (lines 668-672). -/
def actionPrevious (s : AppState) : AppState :=
  if currentList s ≠ [] ∧ 0 < s.currentIndex then
    { s with currentIndex := s.currentIndex - 1 }
  else s

/-- `action_random` (lines 684-690): `random.shuffle` permutes the current
list object in place (modelled by an arbitrary reordering `perm` applied to
the current cell) and the index is reset. -/
def actionRandom (perm : List Track → List Track) (s : AppState) : AppState :=
  if currentList s ≠ [] then
    { s with
      heap := s.heap.set s.currentCell (perm (currentList s))
      currentIndex := 0 }
  else s

/-- The `elif self._highlighted_playlist:` branch of `action_play_pause`
(lines 651-660): load the highlighted playlist; when the result is
non-empty, shuffle it in place if it has more than 50 tracks, then reset
the index (and play).  (The repeated `loadPlaylistTracks env p s` mirrors
the source's repeated reads of `self.current_playlist` after the load.) -/
def playHighlighted (env : Env) (perm : List Track → List Track) (s : AppState)
    (p : Playlist) : AppState :=
  if currentList (loadPlaylistTracks env p s) ≠ [] then
    { (if 50 < (currentList (loadPlaylistTracks env p s)).length then
        { loadPlaylistTracks env p s with
          heap := (loadPlaylistTracks env p s).heap.set
            (loadPlaylistTracks env p s).currentCell
            (perm (currentList (loadPlaylistTracks env p s))) }
      else loadPlaylistTracks env p s) with
      currentIndex := 0 }
  else loadPlaylistTracks env p s

/-- `action_play_pause` (lines 632-660).  With a live player process the
action only toggles pause (no modelled state changes); with a non-empty
current playlist it restarts from index 0; otherwise it loads the
highlighted playlist via `playHighlighted`. -/
def actionPlayPause (env : Env) (perm : List Track → List Track) (s : AppState) : AppState :=
  if s.hasProcess then s
  else if currentList s ≠ [] then { s with currentIndex := 0 }
  else
    match s.highlighted with
    | none => s
    | some p => playHighlighted env perm s p

/-! ## Spec-side strategy selection (for the refinement claim C2)

`selectStrategySpec` follows the words of spec §4.3, phrased over exactly
the three inputs the spec names: the title, the declared count, and
library-handle availability.  It exists only to be compared with the
code-derived `selectStrategy`. -/

/-- Spec wording: the declared count "is known and exceeds" the threshold. -/
def countExceeds (declared : Option Nat) (threshold : Nat) : Bool :=
  match declared with
  | some c => decide (threshold < c)
  | none => false

/-- Spec §4.3: recent feed when the title contains `"Recently Added"`
(case-sensitive) and a library handle exists; else large-library scan when
the declared count is known, exceeds the threshold and a library handle
exists; else direct enumeration. -/
def selectStrategySpec (title : String) (declaredCount : Option Nat) (hasLibrary : Bool) : Strategy :=
  if strContains title "Recently Added" = true ∧ hasLibrary = true then
    .recentFeed
  else if countExceeds declaredCount LARGE_PLAYLIST_THRESHOLD = true ∧ hasLibrary = true then
    .largeLibraryScan
  else
    .directEnumeration

/-! ## List helper lemmas -/

theorem take_len_le {α : Type} (n : Nat) (l : List α) : (l.take n).length ≤ n := by
  rw [List.length_take]; omega

theorem getD_append_self {α : Type} (l : List α) (x d : α) :
    (l ++ [x]).getD l.length d = x := by
  induction l with
  | nil => rfl
  | cons a t ih => simp [List.getD]

theorem getD_set_self {α : Type} (l : List α) (n : Nat) (x d : α) (h : n < l.length) :
    (l.set n x).getD n d = x := by
  induction l generalizing n with
  | nil => simp at h
  | cons a t ih =>
    cases n with
    | zero => rfl
    | succ m => simpa [List.getD] using ih m (by simpa using h)

/-! ## Concrete fixtures used by witnesses and counterexamples -/

def mkTrack (n : Nat) : Track :=
  ⟨some n, .absent, .absent, .absent, none⟩

def trkA : Track := mkTrack 1
def trkB : Track := mkTrack 2
def trkC : Track := mkTrack 3
def trkD : Track := mkTrack 4

def envResolveNone : ResolveEnv :=
  ⟨fun _ => none, fun _ => none⟩

def mkPlaylist (key : Option String) (title : String) (count : Option Nat) : Playlist :=
  ⟨key, title, count.map some, none, none⟩

def pMix : Playlist := mkPlaylist (some "P1") "Mix" none
def pRecent : Playlist := mkPlaylist (some "P2") "Recently Added" none
def pBigNoLib : Playlist := mkPlaylist (some "P3") "Big Mix" (some 5000)

/-- No library handle; only the playlist's own items answer. -/
def envDirect : Env :=
  ⟨false, fun _ => .err .otherError, fun _ => .err .otherError,
    fun _ => .err .otherError, .err .otherError, .ok [trkA, trkB, trkC]⟩

/-- Library handle present, every remote call succeeds with an empty list. -/
def envLib : Env :=
  ⟨true, fun _ => .ok [], fun _ => .ok [], fun _ => .ok [], .ok [], .ok []⟩

/-- Library handle present; `recentlyAdded` raises a non-AttributeError,
the sorted search would succeed, the playlist's items hold `trkD`. -/
def envRecentOtherFail : Env :=
  ⟨true, fun _ => .err .otherError, fun _ => .ok [trkA], fun _ => .ok [],
    .ok [], .ok [trkD]⟩

/-- `recentlyAdded` raises AttributeError, the sorted search succeeds. -/
def envRecentAttrOk : Env :=
  ⟨true, fun _ => .err .attributeError, fun _ => .ok [trkA, trkB],
    fun _ => .ok [], .ok [], .ok [trkD]⟩

/-- `recentlyAdded` raises AttributeError and the sorted search also fails. -/
def envRecentAttrBothFail : Env :=
  ⟨true, fun _ => .err .attributeError, fun _ => .err .otherError,
    fun _ => .ok [], .ok [], .ok [trkD]⟩

/-! ## Claim C1 -/

theorem fallbackItems_length_le (env : Env) (limit : Nat) (ts : List Track)
    (h : fallbackItems env limit = some ts) : ts.length ≤ limit := by
  unfold fallbackItems at h
  cases henv : env.items with
  | ok xs =>
    rw [henv] at h
    cases h
    exact take_len_le ..
  | err e => rw [henv] at h; cases h

theorem fetchRecent_length_le (env : Env) (limit apiLimit : Nat) (ts : List Track)
    (h : fetchRecent env limit apiLimit = some ts) : ts.length ≤ limit := by
  unfold fetchRecent at h
  cases hra : env.recentlyAdded apiLimit with
  | ok xs =>
    rw [hra] at h
    cases h
    exact take_len_le ..
  | err e =>
    rw [hra] at h
    cases e with
    | attributeError =>
      cases hss : env.searchSortedByAdded apiLimit with
      | ok xs =>
        rw [hss] at h
        cases h
        exact take_len_le ..
      | err e2 =>
        rw [hss] at h
        exact fallbackItems_length_le env limit ts h
    | otherError => exact fallbackItems_length_le env limit ts h

theorem fetchLarge_length_le (env : Env) (limit apiLimit : Nat) (ts : List Track)
    (h : fetchLarge env limit apiLimit = some ts) : ts.length ≤ limit := by
  unfold fetchLarge at h
  cases hs : env.searchAll apiLimit with
  | ok xs =>
    rw [hs] at h
    cases h
    split
    · exact take_len_le ..
    · omega
  | err e =>
    rw [hs] at h
    cases hall : env.libraryAll with
    | ok xs =>
      rw [hall] at h
      cases h
      exact take_len_le ..
    | err e2 =>
      rw [hall] at h
      exact fallbackItems_length_le env limit ts h

/-- Claim C1: whatever the remote collaborators return on any of the fetch
paths (recently-added accessor, sorted search, library search, full
library enumeration, or the playlist's own items), a successful fetch
yields at most `limit` tracks. -/
theorem C1_fetch_length_le_cap (env : Env) (p : Playlist) (limit apiLimit : Nat)
    (ts : List Track) (h : runFetch env p limit apiLimit = some ts) :
    ts.length ≤ limit := by
  unfold runFetch at h
  cases hsel : selectStrategy env p with
  | recentFeed => rw [hsel] at h; exact fetchRecent_length_le env limit apiLimit ts h
  | largeLibraryScan => rw [hsel] at h; exact fetchLarge_length_le env limit apiLimit ts h
  | directEnumeration => rw [hsel] at h; exact fallbackItems_length_le env limit ts h

/-- Witness for C1 at a concrete input: the direct-enumeration fetch of
`pMix` (cap 100) returns three tracks, within the cap. -/
theorem C1_fetch_length_le_cap_witness : ([trkA, trkB, trkC] : List Track).length ≤ 100 :=
  C1_fetch_length_le_cap envDirect pMix 100 100 [trkA, trkB, trkC] (by decide)

/-! ## Claim C2 -/

/-- Claim C2: strategy selection is exactly the spec's deterministic
function of the playlist title, its declared count, and library-handle
availability, with the recent-feed title rule taking precedence. -/
theorem C2_strategy_matches_spec (env : Env) (p : Playlist) :
    selectStrategy env p = selectStrategySpec p.title (playlistCount p) env.musicLibrary := by
  unfold selectStrategy selectStrategySpec isLargePlaylist countExceeds
  by_cases h : p.title = ""
  · have hc : strContains "" "Recently Added" = false := by decide
    rw [h]
    simp [hc]
  · simp [h]

/-! ## Claim C3 -/

/-- Every remote call fails, so every fetch path fails. -/
def envFail : Env :=
  ⟨false, fun _ => .err .otherError, fun _ => .err .otherError,
    fun _ => .err .otherError, .err .otherError, .err .otherError⟩

def sEmpty : AppState := ⟨[], [], 0, 7, false, none, 0⟩

/-- Claim C3: a first load of a playlist on a cache miss whose fetch
succeeds installs the fetched list, stores that very list cell in the
cache under the playlist id, and counts one fetch; a second load of the
same id - under an arbitrary, possibly different remote environment -
returns the identical cell with identical content, runs no fetch, and
changes neither the heap nor the cache.  A load whose fetch fails
populates nothing. -/
theorem C3_cache_idempotent (env env2 : Env) (p : Playlist) (s : AppState)
    (k : String) (ts : List Track)
    (hk : p.ratingKey = some k)
    (hmiss : s.tracksCache.lookup k = none)
    (hok : runFetch env p (chosenLimit p) (apiLimitOf p) = some ts)
    (envF : Env) (sF : AppState)
    (hfail : runFetch envF p (chosenLimit p) (apiLimitOf p) = none)
    (hmissF : sF.tracksCache.lookup k = none) :
    currentList (loadPlaylistTracks env p s) = ts ∧
    (loadPlaylistTracks env p s).tracksCache.lookup k =
      some (loadPlaylistTracks env p s).currentCell ∧
    (loadPlaylistTracks env p s).fetchCount = s.fetchCount + 1 ∧
    (loadPlaylistTracks env2 p (loadPlaylistTracks env p s)).currentCell =
      (loadPlaylistTracks env p s).currentCell ∧
    currentList (loadPlaylistTracks env2 p (loadPlaylistTracks env p s)) = ts ∧
    (loadPlaylistTracks env2 p (loadPlaylistTracks env p s)).fetchCount =
      (loadPlaylistTracks env p s).fetchCount ∧
    (loadPlaylistTracks env2 p (loadPlaylistTracks env p s)).heap =
      (loadPlaylistTracks env p s).heap ∧
    (loadPlaylistTracks env2 p (loadPlaylistTracks env p s)).tracksCache =
      (loadPlaylistTracks env p s).tracksCache ∧
    ((loadPlaylistTracks envF p sF).tracksCache = sF.tracksCache ∧
      (loadPlaylistTracks envF p sF).heap = sF.heap ∧
      (loadPlaylistTracks envF p sF).currentCell = sF.currentCell) := by
  have h1 : loadPlaylistTracks env p s =
      { s with
        heap := s.heap ++ [ts]
        tracksCache := (k, s.heap.length) :: s.tracksCache
        currentCell := s.heap.length
        currentIndex := 0
        fetchCount := s.fetchCount + 1 } := by
    simp [loadPlaylistTracks, hk, hmiss, loadFetch, hok]
  have hlk : List.lookup k ((k, s.heap.length) :: s.tracksCache) = some s.heap.length := by
    simp [List.lookup]
  have h2 : loadPlaylistTracks env2 p (loadPlaylistTracks env p s) =
      { loadPlaylistTracks env p s with currentCell := s.heap.length, currentIndex := 0 } := by
    rw [h1]
    simp [loadPlaylistTracks, hk, hlk]
  have h3 : loadPlaylistTracks envF p sF = { sF with fetchCount := sF.fetchCount + 1 } := by
    simp [loadPlaylistTracks, hk, hmissF, loadFetch, hfail]
  refine ⟨?_, ?_, ?_, ?_, ?_, ?_, ?_, ?_, ?_, ?_, ?_⟩
  · rw [h1]; unfold currentList; exact getD_append_self s.heap ts []
  · rw [h1]; exact hlk
  · rw [h1]
  · rw [h2, h1]
  · rw [h2, h1]; unfold currentList; exact getD_append_self s.heap ts []
  · rw [h2]
  · rw [h2]
  · rw [h2]
  · rw [h3]
  · rw [h3]
  · rw [h3]

/-- Witness for C3 at a concrete input: loading `pMix` twice from an empty
cache yields the fetched three tracks both times with no second fetch, and
a failing load does not populate the cache. -/
theorem C3_cache_idempotent_witness :
    currentList (loadPlaylistTracks envLib pMix (loadPlaylistTracks envDirect pMix sEmpty)) =
      [trkA, trkB, trkC] ∧
    (loadPlaylistTracks envLib pMix (loadPlaylistTracks envDirect pMix sEmpty)).fetchCount =
      (loadPlaylistTracks envDirect pMix sEmpty).fetchCount ∧
    (loadPlaylistTracks envFail pMix sEmpty).tracksCache = sEmpty.tracksCache := by
  have h := C3_cache_idempotent envDirect envLib pMix sEmpty "P1" [trkA, trkB, trkC]
    rfl rfl (by decide) envFail sEmpty (by decide) rfl
  exact ⟨h.2.2.2.2.1, h.2.2.2.2.2.1, h.2.2.2.2.2.2.2.2.1⟩

/-! ## Claim C4 -/

def tUnknownTitled : Track := ⟨none, .val "Unknown", .absent, .absent, none⟩
def tBare : Track := ⟨none, .absent, .absent, .absent, none⟩

theorem artist_eq_finish (env : ResolveEnv) (t : Track) :
    (getArtistName env t).artist = finishArtist ((getArtistName env t).found) := by
  simp [getArtistName]

/-- Counterexample to C4: a track whose grandparent-title field itself
holds the string `"Unknown"` makes `_get_artist_name` return `"Unknown"`
although the tiers were not exhausted - tier 1 produced a value and the
later tiers (including 5 and 6) were never consulted.  So the sentinel is
not returned "exactly when" all tiers are exhausted. -/
theorem C4_sentinel_iff_false :
    (getArtistName envResolveNone tUnknownTitled).artist = "Unknown" ∧
    (getArtistName envResolveNone tUnknownTitled).found ≠ "" ∧
    (getArtistName envResolveNone tUnknownTitled).tier5Attempted = false ∧
    (getArtistName envResolveNone tUnknownTitled).tier6Attempted = false := by
  decide

/-- Claim C4 amended: artist resolution is total (the model swallows every
tier failure) and never returns the empty string; whenever every tier is
exhausted (no tier produced a non-empty value) the result is the
`"Unknown"` sentinel; whenever some tier produced a value, the result is
that value - which may itself coincide with the string `"Unknown"`. -/
theorem C4_resolution_total_amended (env : ResolveEnv) (t : Track) :
    (getArtistName env t).artist ≠ "" ∧
    ((getArtistName env t).found = "" → (getArtistName env t).artist = "Unknown") ∧
    ((getArtistName env t).found ≠ "" →
      (getArtistName env t).artist = (getArtistName env t).found) := by
  rw [artist_eq_finish]
  unfold finishArtist
  by_cases h : (getArtistName env t).found = ""
  · refine ⟨?_, fun _ => ?_, fun hne => absurd h hne⟩
    · rw [if_pos h]; decide
    · rw [if_pos h]
  · refine ⟨?_, fun he => absurd he h, fun _ => ?_⟩
    · rw [if_neg h]; exact h
    · rw [if_neg h]

/-- Witness for C4 (amended) at a concrete input: a bare track with no
metadata at all resolves to the non-empty sentinel. -/
theorem C4_resolution_total_amended_witness :
    (getArtistName envResolveNone tBare).artist = "Unknown" ∧
    (getArtistName envResolveNone tBare).artist ≠ "" :=
  ⟨(C4_resolution_total_amended envResolveNone tBare).2.1 (by decide),
   (C4_resolution_total_amended envResolveNone tBare).1⟩

/-! ## Claim C5 -/

/-- Counterexample to C5: a `"Recently Added"` playlist with unknown count
selects the recent-feed strategy yet gets the cap 100, and a large-count
playlist without a library handle selects direct enumeration yet gets the
cap 50 - the cap follows the declared count, not the strategy. -/
theorem C5_cap_not_strategy_determined :
    selectStrategy envLib pRecent = Strategy.recentFeed ∧
    chosenLimit pRecent = 100 ∧
    selectStrategy envDirect pBigNoLib = Strategy.directEnumeration ∧
    chosenLimit pBigNoLib = 50 := by
  decide

/-- Claim C5 amended: the cap is a function of the declared count alone -
50 exactly when the count is known and exceeds the threshold, 100
otherwise.  Large-library scan does imply cap 50 (it requires a large
count), but recent feed caps at 100 whenever the count is not large, and
direct enumeration caps at 50 when the count is large but no library
handle exists.  The limit passed to the remote calls is clamped to the
API ceiling. -/
theorem C5_cap_amended (env : Env) (p : Playlist) :
    (chosenLimit p = 50 ↔ countExceeds (playlistCount p) LARGE_PLAYLIST_THRESHOLD = true) ∧
    (chosenLimit p = 50 ∨ chosenLimit p = 100) ∧
    (selectStrategy env p = .largeLibraryScan → chosenLimit p = 50) ∧
    (selectStrategy env p = .recentFeed →
      countExceeds (playlistCount p) LARGE_PLAYLIST_THRESHOLD = false → chosenLimit p = 100) ∧
    (selectStrategy env p = .directEnumeration →
      countExceeds (playlistCount p) LARGE_PLAYLIST_THRESHOLD = true → chosenLimit p = 50) ∧
    apiLimitOf p ≤ MAX_API_RESULTS := by
  have hlc : isLargePlaylist p = countExceeds (playlistCount p) LARGE_PLAYLIST_THRESHOLD := rfl
  refine ⟨?_, ?_, ?_, ?_, ?_, ?_⟩
  · unfold chosenLimit
    rw [hlc]
    cases hb : countExceeds (playlistCount p) LARGE_PLAYLIST_THRESHOLD <;>
      simp [LARGE_PLAYLIST_LIMIT, REGULAR_PLAYLIST_LIMIT]
  · unfold chosenLimit
    cases hb : isLargePlaylist p <;> simp [LARGE_PLAYLIST_LIMIT, REGULAR_PLAYLIST_LIMIT]
  · intro hs
    by_cases hb : isLargePlaylist p = true
    · simp [chosenLimit, hb, LARGE_PLAYLIST_LIMIT]
    · exfalso
      unfold selectStrategy at hs
      split_ifs at hs with h1 h2
      · exact hb h2.1
  · intro _ hb
    simp [chosenLimit, hlc, hb, REGULAR_PLAYLIST_LIMIT]
  · intro _ hb
    simp [chosenLimit, hlc, hb, LARGE_PLAYLIST_LIMIT]
  · exact Nat.min_le_right ..

/-- Witness for C5 (amended) at concrete inputs: the large-count playlist
gets cap 50, the small recent-feed playlist gets cap 100. -/
theorem C5_cap_amended_witness :
    chosenLimit pBigNoLib = 50 ∧ chosenLimit pRecent = 100 :=
  ⟨(C5_cap_amended envDirect pBigNoLib).1.mpr (by decide),
   (C5_cap_amended envLib pRecent).2.2.2.1 (by decide) (by decide)⟩

/-! ## Claim C6 -/

/-- Counterexample to C6: with the recent-feed strategy selected,
`recentlyAdded` failing with a non-AttributeError exception skips the
sorted search entirely (it would have returned `trkA`) and falls back
directly to the playlist's own items (`trkD`), because only the inner
`except AttributeError` routes to the sorted search. -/
theorem C6_nonattr_failure_skips_sorted :
    runFetch envRecentOtherFail pRecent (chosenLimit pRecent) (apiLimitOf pRecent) =
      some [trkD] ∧
    envRecentOtherFail.recentlyAdded (apiLimitOf pRecent) = .err .otherError ∧
    envRecentOtherFail.searchSortedByAdded (apiLimitOf pRecent) = .ok [trkA] ∧
    ([trkD] : List Track) ≠ [trkA] := by
  decide

/-- Claim C6 amended: under the recent-feed strategy, only an
AttributeError from the recently-added accessor (the "method not
available" case) triggers the sorted-search fallback with the same cap;
any other failure of the accessor, and any failure of the sorted search,
falls back to direct enumeration of the playlist's own items. -/
theorem C6_recent_fallback_amended (env : Env) (limit apiLimit : Nat)
    (xs : List Track) (e : PyError) :
    (env.recentlyAdded apiLimit = .err .attributeError →
      env.searchSortedByAdded apiLimit = .ok xs →
      fetchRecent env limit apiLimit = some (xs.take limit)) ∧
    (env.recentlyAdded apiLimit = .err .attributeError →
      env.searchSortedByAdded apiLimit = .err e →
      fetchRecent env limit apiLimit = fallbackItems env limit) ∧
    (env.recentlyAdded apiLimit = .err .otherError →
      fetchRecent env limit apiLimit = fallbackItems env limit) := by
  refine ⟨?_, ?_, ?_⟩
  · intro h1 h2
    simp [fetchRecent, h1, h2]
  · intro h1 h2
    simp [fetchRecent, h1, h2]
  · intro h1
    simp [fetchRecent, h1]

/-- Witness for C6 (amended) at concrete inputs: AttributeError falls back
to the sorted search; AttributeError plus a failing sorted search, and a
non-AttributeError failure, both end at the playlist's own items. -/
theorem C6_recent_fallback_amended_witness :
    fetchRecent envRecentAttrOk 3 3 = some [trkA, trkB] ∧
    fetchRecent envRecentAttrBothFail 3 3 = fallbackItems envRecentAttrBothFail 3 ∧
    fetchRecent envRecentOtherFail 3 3 = fallbackItems envRecentOtherFail 3 := by
  refine ⟨?_, ?_, ?_⟩
  · exact ((C6_recent_fallback_amended envRecentAttrOk 3 3 [trkA, trkB]
      PyError.otherError).1 rfl rfl).trans (by decide)
  · exact (C6_recent_fallback_amended envRecentAttrBothFail 3 3 []
      PyError.otherError).2.1 rfl rfl
  · exact (C6_recent_fallback_amended envRecentOtherFail 3 3 []
      PyError.otherError).2.2 rfl

/-! ## Claim C7 -/

def tRawWs : Track :=
  ⟨some 8, .absent, .absent, .absent,
    some [("grandparentTitle", " "), ("originalTitle", "Band X")]⟩

def tRawBand : Track :=
  ⟨some 7, .absent, .absent, .absent, some [("originalTitle", "Band X")]⟩

/-- Counterexample to C7: the structured grandparent tier yields nothing
and the raw document holds the non-empty `"Band X"` under `originalTitle`,
but a whitespace-only `grandparentTitle` element comes first: the scan
breaks on its truthy text, strips it to nothing, skips the remaining
candidates, and the resolver goes on to attempt tiers 5 and 6, returning
`"Unknown"` instead of `"Band X"`. -/
theorem C7_whitespace_candidate_blocks :
    (getArtistName envResolveNone tRawWs).artist = "Unknown" ∧
    (getArtistName envResolveNone tRawWs).artist ≠ "Band X" ∧
    (getArtistName envResolveNone tRawWs).tier5Attempted = true ∧
    (getArtistName envResolveNone tRawWs).tier6Attempted = true := by
  decide

/-- Claim C7 amended: when the structured grandparent tier yields nothing,
the raw document is present, and the ordered candidate scan (which breaks
at the first element with truthy text, so a whitespace-only earlier
candidate yields nothing) produces a non-empty trimmed value, that value
is the resolver's result and neither the reload tier nor the dedicated
artist-lookup tier is attempted. -/
theorem C7_raw_lookup_amended (env : ResolveEnv) (t : Track)
    (doc : List (String × String))
    (h1 : acc1 t = "")
    (h2 : t.rawData = some doc)
    (h3 : rawScan doc artistElemNames ≠ "") :
    (getArtistName env t).artist = rawScan doc artistElemNames ∧
    (getArtistName env t).tier5Attempted = false ∧
    (getArtistName env t).tier6Attempted = false := by
  have ha2 : acc2 t = rawScan doc artistElemNames := by simp [acc2, h1, h2]
  have ha3 : acc3 t = rawScan doc artistElemNames := by simp [acc3, ha2, h3]
  have ha4 : acc4 t = rawScan doc artistElemNames := by simp [acc4, ha3, h3]
  have ha5 : acc5 env t = rawScan doc artistElemNames := by simp [acc5, ha4, h3]
  have ha6 : acc6 env t = rawScan doc artistElemNames := by simp [acc6, ha5, h3]
  refine ⟨?_, ?_, ?_⟩
  · simp [getArtistName, finishArtist, ha6, h3]
  · simp [getArtistName, ha4, h3]
  · simp [getArtistName, ha5, h3]

/-- Witness for C7 (amended) at a concrete input: an `originalTitle`
element `"Band X"` is returned without the expensive tiers. -/
theorem C7_raw_lookup_amended_witness :
    (getArtistName envResolveNone tRawBand).artist = "Band X" ∧
    (getArtistName envResolveNone tRawBand).tier5Attempted = false ∧
    (getArtistName envResolveNone tRawBand).tier6Attempted = false := by
  have h := C7_raw_lookup_amended envResolveNone tRawBand
    [("originalTitle", "Band X")] (by decide) rfl (by decide)
  exact ⟨h.1.trans (by decide), h.2.1, h.2.2⟩

/-! ## Claim C8 -/

/-- Counterexample to C8: nothing caches the resolved artist on the track.
For a track whose cheap tiers all fail, a second resolution - as happens
on every list redraw - performs the expensive reload and artist-lookup
calls again: two redraws cost four expensive invocations, not two. -/
theorem C8_no_resolution_cache :
    repeatedResolveCost envResolveNone trkC 1 = 2 ∧
    repeatedResolveCost envResolveNone trkC 2 = 4 ∧
    (getArtistName envResolveNone trkC).tier5Attempted = true ∧
    (getArtistName envResolveNone trkC).tier6Attempted = true := by
  decide

/-- Claim C8 amended: `_get_artist_name` holds no memo and nothing is
stored on the track - every call recomputes the whole chain, so `n`
redraws of a track incur exactly `n` times the per-call expensive-tier
invocations; tiers 5-6 re-trigger on every redraw whenever their guards
hold, and only the determinism of the chain keeps the displayed value
stable. -/
theorem C8_recompute_amended (env : ResolveEnv) (t : Track) (n : Nat) :
    repeatedResolveCost env t n = n * expensiveCalls env t := by
  induction n with
  | zero => simp [repeatedResolveCost]
  | succ m ih =>
    show expensiveCalls env t + repeatedResolveCost env t m = _
    rw [ih, Nat.succ_mul]
    omega

/-! ## Claim C9 -/

theorem load_shape (env : Env) (p : Playlist) (s : AppState) :
    (loadPlaylistTracks env p s).currentIndex = 0 ∨
    loadPlaylistTracks env p s = { s with fetchCount := s.fetchCount + 1 } := by
  unfold loadPlaylistTracks loadFetch
  cases hk : p.ratingKey with
  | none =>
    cases hr : runFetch env p (chosenLimit p) (apiLimitOf p) <;> simp [hr]
  | some k =>
    cases hl : s.tracksCache.lookup k with
    | some cell => simp [hl]
    | none =>
      cases hr : runFetch env p (chosenLimit p) (apiLimitOf p) <;> simp [hl, hr]

theorem actionNext_bounds (s : AppState) (h0 : 0 ≤ s.currentIndex)
    (hlt : s.currentIndex < ((currentList s).length : Int)) :
    0 ≤ (actionNext s).currentIndex ∧
      (actionNext s).currentIndex < ((currentList (actionNext s)).length : Int) := by
  unfold actionNext
  split_ifs with h
  · obtain ⟨hne, hlt2⟩ := h
    refine ⟨?_, ?_⟩
    · show 0 ≤ s.currentIndex + 1
      omega
    · show s.currentIndex + 1 < ((currentList s).length : Int)
      omega
  · exact ⟨h0, hlt⟩

theorem actionPrevious_bounds (s : AppState) (h0 : 0 ≤ s.currentIndex)
    (hlt : s.currentIndex < ((currentList s).length : Int)) :
    0 ≤ (actionPrevious s).currentIndex ∧
      (actionPrevious s).currentIndex < ((currentList (actionPrevious s)).length : Int) := by
  unfold actionPrevious
  split_ifs with h
  · obtain ⟨hne, hpos⟩ := h
    refine ⟨?_, ?_⟩
    · show 0 ≤ s.currentIndex - 1
      omega
    · show s.currentIndex - 1 < ((currentList s).length : Int)
      omega
  · exact ⟨h0, hlt⟩

theorem playPause_shape (env : Env) (perm : List Track → List Track) (s : AppState)
    (hproc : s.hasProcess = false) :
    (actionPlayPause env perm s).currentIndex = 0 ∨
    currentList (actionPlayPause env perm s) = currentList s := by
  unfold actionPlayPause
  rw [if_neg (by simp [hproc])]
  by_cases hcl : currentList s = []
  · rw [if_neg (by simp [hcl])]
    cases hh : s.highlighted with
    | none => right; rfl
    | some q =>
      show (playHighlighted env perm s q).currentIndex = 0 ∨
        currentList (playHighlighted env perm s q) = currentList s
      unfold playHighlighted
      by_cases h1 : currentList (loadPlaylistTracks env q s) = []
      · rw [if_neg (by simp [h1])]
        right
        rw [h1, hcl]
      · rw [if_pos h1]
        left
        rfl
  · rw [if_pos hcl]
    left
    rfl

/-- Claim C9: the playback cursor stays in `[0, length)` under `next` and
`previous`; both are no-ops at their boundary and on an empty list; and
every operation that replaces or shuffles the current list (a load that
changed the installed list, a shuffle of a non-empty list, a play-pause
that changed the installed list) resets the cursor to 0. -/
theorem C9_cursor_bounds (s : AppState) (env : Env) (p : Playlist)
    (perm : List Track → List Track) :
    (0 ≤ s.currentIndex → s.currentIndex < ((currentList s).length : Int) →
      0 ≤ (actionNext s).currentIndex ∧
      (actionNext s).currentIndex < ((currentList (actionNext s)).length : Int) ∧
      0 ≤ (actionPrevious s).currentIndex ∧
      (actionPrevious s).currentIndex < ((currentList (actionPrevious s)).length : Int)) ∧
    (currentList s = [] → actionNext s = s ∧ actionPrevious s = s) ∧
    (s.currentIndex = ((currentList s).length : Int) - 1 → actionNext s = s) ∧
    (s.currentIndex = 0 → actionPrevious s = s) ∧
    (currentList (loadPlaylistTracks env p s) ≠ currentList s ∨
        (loadPlaylistTracks env p s).currentCell ≠ s.currentCell →
      (loadPlaylistTracks env p s).currentIndex = 0) ∧
    (currentList s ≠ [] → (actionRandom perm s).currentIndex = 0) ∧
    (currentList s = [] → actionRandom perm s = s) ∧
    (s.hasProcess = false → currentList (actionPlayPause env perm s) ≠ currentList s →
      (actionPlayPause env perm s).currentIndex = 0) := by
  refine ⟨?_, ?_, ?_, ?_, ?_, ?_, ?_, ?_⟩
  · intro h0 hlt
    obtain ⟨hn0, hn1⟩ := actionNext_bounds s h0 hlt
    obtain ⟨hp0, hp1⟩ := actionPrevious_bounds s h0 hlt
    exact ⟨hn0, hn1, hp0, hp1⟩
  · intro h
    constructor
    · unfold actionNext
      rw [if_neg (by simp [h])]
    · unfold actionPrevious
      rw [if_neg (by simp [h])]
  · intro h
    unfold actionNext
    rw [if_neg (by omega)]
  · intro h
    unfold actionPrevious
    rw [if_neg (by omega)]
  · intro hch
    rcases load_shape env p s with h | h
    · exact h
    · rw [h] at hch
      rcases hch with hch | hch
      · exact absurd rfl hch
      · exact absurd rfl hch
  · intro h
    unfold actionRandom
    rw [if_pos h]
  · intro h
    unfold actionRandom
    rw [if_neg (by simp [h])]
  · intro hproc hch
    rcases playPause_shape env perm s hproc with h | h
    · exact h
    · exact absurd h hch

def sTwo : AppState := ⟨[[trkA, trkB]], [], 0, 0, false, none, 0⟩
def sTwoEnd : AppState := ⟨[[trkA, trkB]], [], 0, 1, false, none, 0⟩
def sNone : AppState := ⟨[], [], 0, 0, false, none, 0⟩

/-- Witness for C9 at concrete states: in-bounds preservation on a
two-track list, boundary no-ops, the reset after a shuffle, and the no-op
on an empty list. -/
theorem C9_cursor_bounds_witness :
    (0 ≤ (actionNext sTwo).currentIndex ∧
      (actionNext sTwo).currentIndex < ((currentList (actionNext sTwo)).length : Int)) ∧
    actionNext sTwoEnd = sTwoEnd ∧
    actionPrevious sTwo = sTwo ∧
    (actionRandom id sTwo).currentIndex = 0 ∧
    actionRandom id sNone = sNone := by
  refine ⟨?_, ?_, ?_, ?_, ?_⟩
  · have h := (C9_cursor_bounds sTwo envLib pMix id).1 (by decide) (by decide)
    exact ⟨h.1, h.2.1⟩
  · exact (C9_cursor_bounds sTwoEnd envLib pMix id).2.2.1 (by decide)
  · exact (C9_cursor_bounds sTwo envLib pMix id).2.2.2.1 (by decide)
  · exact (C9_cursor_bounds sTwo envLib pMix id).2.2.2.2.2.1 (by decide)
  · exact (C9_cursor_bounds sNone envLib pMix id).2.2.2.2.2.2.1 (by decide)

/-! ## Claim C10 -/

def bigList : List Track := (List.range 51).map mkTrack
def pBig : Playlist := mkPlaylist (some "PB") "Big Mix" none
def sBig : AppState := ⟨[[], bigList], [("PB", 1)], 0, 0, false, some pBig, 0⟩

/-- Claim C10: a cache hit installs the cache entry itself (the same heap
cell, not a copy), so shuffling - via the explicit random action or the
automatic shuffle of a more-than-50-track play-pause - permutes the
cached cell in place; the cache still maps the playlist id to that cell,
and a later cache hit for the same id returns the shuffled order. -/
theorem C10_cache_aliasing (env env2 : Env) (p : Playlist)
    (perm : List Track → List Track) (s : AppState) (k : String) (c : Nat)
    (l0 : List Track)
    (hk : p.ratingKey = some k)
    (hc : s.tracksCache.lookup k = some c)
    (hlen : c < s.heap.length)
    (hval : s.heap.getD c [] = l0)
    (hne : l0 ≠ []) :
    (loadPlaylistTracks env p s).currentCell = c ∧
    (actionRandom perm (loadPlaylistTracks env p s)).heap.getD c [] = perm l0 ∧
    (actionRandom perm (loadPlaylistTracks env p s)).tracksCache.lookup k = some c ∧
    currentList (loadPlaylistTracks env2 p
      (actionRandom perm (loadPlaylistTracks env p s))) = perm l0 ∧
    (s.hasProcess = false → currentList s = [] → s.highlighted = some p →
      50 < l0.length →
      (actionPlayPause env perm s).heap.getD c [] = perm l0) := by
  have h1 : loadPlaylistTracks env p s = { s with currentCell := c, currentIndex := 0 } := by
    simp [loadPlaylistTracks, hk, hc]
  have hcl1 : currentList { s with currentCell := c, currentIndex := 0 } = l0 := by
    simpa [currentList] using hval
  have h2 : actionRandom perm (loadPlaylistTracks env p s) =
      { s with heap := s.heap.set c (perm l0), currentCell := c, currentIndex := 0 } := by
    rw [h1]
    unfold actionRandom
    rw [if_pos (by rw [hcl1]; exact hne)]
    rw [hcl1]
  have hget : (s.heap.set c (perm l0)).getD c [] = perm l0 :=
    getD_set_self s.heap c (perm l0) [] hlen
  have h3 : loadPlaylistTracks env2 p (actionRandom perm (loadPlaylistTracks env p s)) =
      { s with heap := s.heap.set c (perm l0), currentCell := c, currentIndex := 0 } := by
    rw [h2]
    simp [loadPlaylistTracks, hk, hc]
  refine ⟨?_, ?_, ?_, ?_, ?_⟩
  · rw [h1]
  · rw [h2]; exact hget
  · rw [h2]; exact hc
  · rw [h3]
    show (s.heap.set c (perm l0)).getD c [] = perm l0
    exact hget
  · intro hproc hcl hh hbig
    unfold actionPlayPause
    rw [if_neg (by simp [hproc])]
    rw [if_neg (by simp [hcl])]
    rw [hh]
    show (playHighlighted env perm s p).heap.getD c [] = perm l0
    unfold playHighlighted
    rw [h1]
    rw [if_pos (by rw [hcl1]; exact hne)]
    rw [hcl1]
    rw [if_pos hbig]
    show (s.heap.set c (perm l0)).getD c [] = perm l0
    exact hget

/-- Witness for C10 at the concrete state `sBig`: the 51-track cached
cell is reversed in place both by the random action and by the automatic
play-pause shuffle, and a later cache hit returns the reversed list. -/
theorem C10_cache_aliasing_witness :
    (actionRandom List.reverse (loadPlaylistTracks envLib pBig sBig)).heap.getD 1 [] =
      bigList.reverse ∧
    currentList (loadPlaylistTracks envDirect pBig
      (actionRandom List.reverse (loadPlaylistTracks envLib pBig sBig))) =
      bigList.reverse ∧
    (actionPlayPause envLib List.reverse sBig).heap.getD 1 [] = bigList.reverse := by
  have h := C10_cache_aliasing envLib envDirect pBig List.reverse sBig "PB" 1 bigList
    rfl (by decide) (by decide) rfl (by decide)
  exact ⟨h.2.1, h.2.2.2.1, h.2.2.2.2 rfl rfl rfl (by decide)⟩

end PlexTUI
